import Mathlib

/-
Verification of the gpu_mon_cli monitor (src/gpu_monitor.py) against its
specification.  The sampler `get_gpu_data`, the renderer `generate_table`
and the exception handling of the `__main__` block are shallowly embedded:
the NVML binding is modelled as an oracle record of query outcomes, machine
floats as exact rationals, and the sampler as a computation that also logs
the NVML calls it performs, so that the shutdown discipline of the
`try/except/finally` block is visible in the model.
-/

namespace GpuMon

/-- The NVML error conditions the program distinguishes: `pynvml` raises
`NVMLError` subclasses; the source names `NVMLError_NotSupported` (fan query)
and relies on the catch-all `NVMLError` elsewhere.  `str` models Python's
`str(e)` on the exception object. -/
inductive NVMLErr where
  | notSupported
  | uninitialized
  | other (msg : String)
  deriving DecidableEq, Repr

def NVMLErr.str : NVMLErr → String
  | NVMLErr.notSupported => "Not Supported"
  | NVMLErr.uninitialized => "Uninitialized"
  | NVMLErr.other msg => msg

/-- Result of `nvmlDeviceGetMemoryInfo` (fields in bytes, modelled as ℚ). -/
structure MemoryInfo where
  used : ℚ
  total : ℚ
  deriving DecidableEq, Repr

/-- Result of `nvmlDeviceGetUtilizationRates` (the source reads `.gpu`). -/
structure UtilizationRates where
  gpu : Nat
  deriving DecidableEq, Repr

/-- The `fan_speed` entry of a device dict: an integer percent, or the
string `"N/A"` stored when the query raised `NVMLError_NotSupported`
(line 34 of the source). -/
inductive FanVal where
  | percent (n : Nat)
  | na
  deriving DecidableEq, Repr

/-- One device's dict as appended by `get_gpu_data` (lines 48-61). -/
structure GpuRecord where
  id : Nat
  name : String
  temp : Int
  fan_speed : FanVal
  mem_used : ℚ
  mem_total : ℚ
  mem_percent : ℚ
  gpu_util : Nat
  power_usage : ℚ
  power_limit : ℚ
  power_percent : ℚ
  driver_version : String
  deriving DecidableEq, Repr

/-- `get_gpu_data`'s return value: a list of device dicts, or the
`{"error": str(e)}` dict produced on `NVMLError` (line 64). -/
inductive SampleResult where
  | ok (devices : List GpuRecord)
  | err (msg : String)
  deriving DecidableEq, Repr

def SampleResult.isErr : SampleResult → Bool
  | SampleResult.ok _ => false
  | SampleResult.err _ => true

/-- The NVML subsystem as an oracle: the outcome of each call the source
makes.  Power values are in milliwatts, memory in bytes, exactly as pynvml
returns them before the source's unit conversions. -/
structure NVML where
  initResult : Except NVMLErr Unit
  countResult : Except NVMLErr Nat
  handleRes : Nat → Except NVMLErr Unit
  nameRes : Nat → Except NVMLErr String
  tempRes : Nat → Except NVMLErr Int
  fanRes : Nat → Except NVMLErr Nat
  memRes : Nat → Except NVMLErr MemoryInfo
  utilRes : Nat → Except NVMLErr UtilizationRates
  powerUsageRes : Nat → Except NVMLErr ℚ
  powerLimitRes : Nat → Except NVMLErr ℚ
  driverVersionRes : Except NVMLErr String
  shutdownResult : Except NVMLErr Unit

/-- The kinds of per-device NVML calls made inside the loop. -/
inductive QueryKind where
  | handle
  | name
  | temp
  | fan
  | memInfo
  | util
  | powerUsage
  | powerLimit
  | driverVersion
  deriving DecidableEq, Repr

/-- One NVML call, for the call log of a `get_gpu_data` run. -/
inductive Call where
  | nvInit
  | getCount
  | query (i : Nat) (k : QueryKind)
  | shutdown
  deriving DecidableEq, Repr

/-- A computation against the NVML oracle: the list of calls it performs
and its outcome (an uncaught `NVMLError` short-circuits, like a Python
exception unwinding to the enclosing handler). -/
def Eff (α : Type) : Type := List Call × Except NVMLErr α

def Eff.pure {α : Type} (a : α) : Eff α := ([], Except.ok a)

def Eff.bind {α β : Type} (x : Eff α) (f : α → Eff β) : Eff β :=
  match x with
  | (t, Except.ok a) => (t ++ (f a).1, (f a).2)
  | (t, Except.error e) => (t, Except.error e)

def effInit (nv : NVML) : Eff Unit := ([Call.nvInit], nv.initResult)

def effCount (nv : NVML) : Eff Nat := ([Call.getCount], nv.countResult)

def effHandle (nv : NVML) (i : Nat) : Eff Unit :=
  ([Call.query i QueryKind.handle], nv.handleRes i)

def effName (nv : NVML) (i : Nat) : Eff String :=
  ([Call.query i QueryKind.name], nv.nameRes i)

def effTemp (nv : NVML) (i : Nat) : Eff Int :=
  ([Call.query i QueryKind.temp], nv.tempRes i)

def effFanSpeed (nv : NVML) (i : Nat) : Eff Nat :=
  ([Call.query i QueryKind.fan], nv.fanRes i)

def effMemInfo (nv : NVML) (i : Nat) : Eff MemoryInfo :=
  ([Call.query i QueryKind.memInfo], nv.memRes i)

def effUtil (nv : NVML) (i : Nat) : Eff UtilizationRates :=
  ([Call.query i QueryKind.util], nv.utilRes i)

def effPowerUsage (nv : NVML) (i : Nat) : Eff ℚ :=
  ([Call.query i QueryKind.powerUsage], nv.powerUsageRes i)

def effPowerLimit (nv : NVML) (i : Nat) : Eff ℚ :=
  ([Call.query i QueryKind.powerLimit], nv.powerLimitRes i)

def effDriverVersion (nv : NVML) (i : Nat) : Eff String :=
  ([Call.query i QueryKind.driverVersion], nv.driverVersionRes)

/-- Lines 31-34 of the source: the fan-speed query wrapped in
`try: ... except pynvml.NVMLError_NotSupported: fan_speed = "N/A"`.
Only the NotSupported error is caught; every other NVML error keeps
propagating. -/
def effFanCaught (nv : NVML) (i : Nat) : Eff FanVal :=
  match effFanSpeed nv i with
  | (t, Except.ok n) => (t, Except.ok (FanVal.percent n))
  | (t, Except.error NVMLErr.notSupported) => (t, Except.ok FanVal.na)
  | (t, Except.error e) => (t, Except.error e)

/-- The guarded percent expression used on lines 39 and 46 of the source:
`(used / total) * 100 if total > 0 else 0`. -/
def pct (used total : ℚ) : ℚ := if 0 < total then used / total * 100 else 0

/-- The device dict built on lines 36-61 from the raw query results:
bytes are converted to MiB (`/ 1024**2`), milliwatts to watts (`/ 1000.0`),
and the two percent fields use the guarded expression `pct`. -/
def mkRecord (i : Nat) (name : String) (temp : Int) (fan : FanVal)
    (mi : MemoryInfo) (ur : UtilizationRates) (pu pl : ℚ) (dv : String) :
    GpuRecord :=
  let mem_used := mi.used / (1024 * 1024)
  let mem_total := mi.total / (1024 * 1024)
  let mem_percent := pct mem_used mem_total
  let power_usage := pu / 1000
  let power_limit := pl / 1000
  let power_percent := pct power_usage power_limit
  { id := i
  , name := name
  , temp := temp
  , fan_speed := fan
  , mem_used := mem_used
  , mem_total := mem_total
  , mem_percent := mem_percent
  , gpu_util := ur.gpu
  , power_usage := power_usage
  , power_limit := power_limit
  , power_percent := power_percent
  , driver_version := dv }

/-- The body of one iteration of the device loop (lines 26-61). -/
def queryDevice (nv : NVML) (i : Nat) : Eff GpuRecord :=
  Eff.bind (effHandle nv i) (fun _ =>
  Eff.bind (effName nv i) (fun name =>
  Eff.bind (effTemp nv i) (fun temp =>
  Eff.bind (effFanCaught nv i) (fun fan =>
  Eff.bind (effMemInfo nv i) (fun mi =>
  Eff.bind (effUtil nv i) (fun ur =>
  Eff.bind (effPowerUsage nv i) (fun pu =>
  Eff.bind (effPowerLimit nv i) (fun pl =>
  Eff.bind (effDriverVersion nv i) (fun dv =>
  Eff.pure (mkRecord i name temp fan mi ur pu pl dv))))))))))

/-- `for i in range(device_count)` starting at index `i` with `n` iterations
left, accumulating the appended device dicts in order. -/
def collectFrom (nv : NVML) (i : Nat) : Nat → Eff (List GpuRecord)
  | 0 => Eff.pure []
  | Nat.succ n =>
      Eff.bind (queryDevice nv i) (fun d =>
      Eff.bind (collectFrom nv (i + 1) n) (fun rest =>
      Eff.pure (d :: rest)))

/-- The `try` block of `get_gpu_data` (lines 22-61): init, count, loop. -/
def sampleBody (nv : NVML) : Eff (List GpuRecord) :=
  Eff.bind (effInit nv) (fun _ =>
  Eff.bind (effCount nv) (fun device_count =>
  collectFrom nv 0 device_count))

def effShutdown (nv : NVML) : Eff Unit := ([Call.shutdown], nv.shutdownResult)

/-- Lines 66-69: `try: pynvml.nvmlShutdown() except pynvml.NVMLError: pass` —
every NVML error from the wrapped action is swallowed. -/
def catchAllNVML (x : Eff Unit) : Eff Unit :=
  match x with
  | (t, Except.ok a) => (t, Except.ok a)
  | (t, Except.error _) => (t, Except.ok ())

/-- `get_gpu_data` (lines 19-70) with its call log: the try block runs, an
`NVMLError` is converted to the error dict (line 64), and the `finally`
block always attempts the shutdown with its errors suppressed. -/
def get_gpu_data_run (nv : NVML) : List Call × SampleResult :=
  let body := sampleBody nv
  let fin := catchAllNVML (effShutdown nv)
  (body.1 ++ fin.1,
    match body.2 with
    | Except.ok gpu_data => SampleResult.ok gpu_data
    | Except.error e => SampleResult.err e.str)

def get_gpu_data (nv : NVML) : SampleResult := (get_gpu_data_run nv).2

/- ------------------------------------------------------------------ -/
/- Renderer (generate_table, lines 72-136)                             -/
/- ------------------------------------------------------------------ -/

/-- Temperature banding of lines 92-98: `>= 80` bold red, `elif >= 65`
yellow, else green. -/
def temp_style (t : Int) : String :=
  if t ≥ 80 then "bold red" else if t ≥ 65 then "yellow" else "green"

/-- A `rich.progress_bar.ProgressBar(total, completed, width)`. -/
structure ProgressBar where
  total : ℚ
  completed : ℚ
  width : Nat
  deriving DecidableEq, Repr

/-- The power cell, `Text.assemble` of the line
`"<power_usage:.1f>W / <power_limit:.0f>W\n"` followed by the bar; the
numeric components are kept exactly rather than decimal-formatted. -/
structure PowerCell where
  power_usage : ℚ
  power_limit : ℚ
  bar : ProgressBar
  deriving DecidableEq, Repr

/-- The memory cell, `Text.assemble` of
`"<mem_used:.0f>MiB / <mem_total:.0f>MiB\n"` followed by the bar. -/
structure MemCell where
  mem_used : ℚ
  mem_total : ℚ
  bar : ProgressBar
  deriving DecidableEq, Repr

/-- The utilization cell, `Text.assemble` of `"<gpu_util>%"`, a newline and
the bar. -/
structure UtilCell where
  gpu_util : Nat
  bar : ProgressBar
  deriving DecidableEq, Repr

/-- One table row as passed to `table.add_row` (lines 122-130). -/
structure Row where
  id : String
  name : String
  temp_text : String
  fan_text : String
  power : PowerCell
  memory : MemCell
  util : UtilCell
  deriving DecidableEq, Repr

/-- Line 101: `"<fan>%"` when the fan entry is an int, the dimmed
placeholder otherwise. -/
def fanText : FanVal → String
  | FanVal.percent n => toString n ++ "%"
  | FanVal.na => "[dim]N/A[/dim]"

/-- The loop body of lines 91-130 for one device dict. -/
def renderRow (gpu : GpuRecord) : Row :=
  let style := temp_style gpu.temp
  { id := toString gpu.id
  , name := gpu.name
  , temp_text := "[" ++ style ++ "]" ++ toString gpu.temp ++ "°C[/" ++ style ++ "]"
  , fan_text := fanText gpu.fan_speed
  , power :=
      { power_usage := gpu.power_usage
      , power_limit := gpu.power_limit
      , bar := { total := 100, completed := gpu.power_percent, width := 20 } }
  , memory :=
      { mem_used := gpu.mem_used
      , mem_total := gpu.mem_total
      , bar := { total := 100, completed := gpu.mem_percent, width := 20 } }
  , util :=
      { gpu_util := gpu.gpu_util
      , bar := { total := 100, completed := (gpu.gpu_util : ℚ), width := 20 } } }

/-- One `table.add_column` call. -/
structure Column where
  header : String
  justify : String
  style : String
  no_wrap : Bool
  deriving DecidableEq, Repr

/-- The seven columns added on lines 83-89, in order (justify defaults to
left where the source passes none). -/
def gpuColumns : List Column :=
  [ { header := "ID", justify := "right", style := "cyan", no_wrap := true }
  , { header := "GPU Name", justify := "left", style := "magenta", no_wrap := false }
  , { header := "Temp", justify := "right", style := "bright_green", no_wrap := false }
  , { header := "Fan", justify := "right", style := "green", no_wrap := false }
  , { header := "Power (W)", justify := "center", style := "yellow", no_wrap := false }
  , { header := "Memory (MiB)", justify := "center", style := "blue", no_wrap := false }
  , { header := "GPU Util", justify := "center", style := "purple", no_wrap := false } ]

/-- A `rich.table.Table`. -/
structure Table where
  title : String
  expand : Bool
  border_style : String
  columns : List Column
  rows : List Row
  deriving DecidableEq, Repr

/-- A `rich.text.Text` with its keyword arguments (line 76). -/
structure TextBlock where
  text : String
  justify : String
  style : String
  deriving DecidableEq, Repr

/-- What the returned Panel wraps: free text (the error frame) or the
metrics table. -/
inductive PanelBody where
  | text (tb : TextBlock)
  | table (tbl : Table)
  deriving DecidableEq, Repr

/-- A `rich.panel.Panel`. -/
structure Panel where
  body : PanelBody
  title : String
  subtitle : Option String
  border_style : String
  deriving DecidableEq, Repr

def Panel.isErrorPanel (p : Panel) : Bool :=
  match p.body with
  | PanelBody.text _ => true
  | PanelBody.table _ => false

def Panel.bodyText (p : Panel) : Option TextBlock :=
  match p.body with
  | PanelBody.text tb => some tb
  | PanelBody.table _ => none

def Panel.bodyTable (p : Panel) : Option Table :=
  match p.body with
  | PanelBody.text _ => none
  | PanelBody.table tbl => some tbl

/-- `generate_table` (lines 72-136).  The wall-clock string
`datetime.now().strftime('%Y-%m-%d %H:%M:%S')` is injected as `now`. -/
def generate_table (now : String) : SampleResult → Panel
  | SampleResult.err msg =>
      { body := PanelBody.text
          { text := "NVIDIA Driver/SMI Error:\n" ++ msg
          , justify := "center"
          , style := "bold red" }
      , title := "[bold yellow]GPU Monitor[/bold yellow]"
      , subtitle := none
      , border_style := "red" }
  | SampleResult.ok gpu_data =>
      let table : Table :=
        { title := "[bold yellow]GPU Monitor[/bold yellow]"
        , expand := true
        , border_style := "green"
        , columns := gpuColumns
        , rows := gpu_data.map renderRow }
      let driver_version :=
        match gpu_data with
        | [] => "N/A"
        | g :: _ => g.driver_version
      let footer := "NVIDIA Driver: " ++ driver_version ++ " | Last updated: " ++ now
      { body := PanelBody.table table
      , title := "[b]GPU Status[/b]"
      , subtitle := some ("[dim]" ++ footer ++ "[/dim]")
      , border_style := "blue" }

/- ------------------------------------------------------------------ -/
/- Main block exception handling (lines 139-149)                       -/
/- ------------------------------------------------------------------ -/

/-- How the `try` block of `__main__` terminated: the user's interrupt, or
an exception that escaped rendering / the display layer. -/
inductive LoopExit where
  | keyboardInterrupt
  | unexpected (msg : String)
  deriving DecidableEq, Repr

/-- Observable process outcome: lines printed to each stream, and the exit
code the interpreter ends with. -/
structure ProcessOutcome where
  stdoutLines : List String
  stderrLines : List String
  exitCode : Nat
  deriving DecidableEq, Repr

/-- The two `except` clauses of lines 146-149: both print through
`console` (standard output) and fall off the end of the script, so the
interpreter exits with code 0 in both cases. -/
def mainExceptionHandling : LoopExit → ProcessOutcome
  | LoopExit.keyboardInterrupt =>
      { stdoutLines := ["\n[bold green]GPU monitor stopped.[/bold green]"]
      , stderrLines := []
      , exitCode := 0 }
  | LoopExit.unexpected msg =>
      { stdoutLines := ["\n[bold red]An unexpected error occurred: " ++ msg ++ "[/bold red]"]
      , stderrLines := []
      , exitCode := 0 }

/- ------------------------------------------------------------------ -/
/- Auxiliary definitions for the claims                                -/
/- ------------------------------------------------------------------ -/

/-- Python float division, which raises `ZeroDivisionError` on a zero
denominator; used to state that the guarded percent expression can never
hit that error. -/
def pyDiv (a b : ℚ) : Option ℚ := if b = 0 then none else some (a / b)

/-- The percent expression evaluated with checked (Python-like) division:
`none` would mean a `ZeroDivisionError`. -/
def pctChecked (used total : ℚ) : Option ℚ :=
  if 0 < total then Option.map (fun q => q * 100) (pyDiv used total) else some 0

/-- A fully healthy one-device subsystem, used as concrete input. -/
def nvGood : NVML :=
  { initResult := Except.ok ()
  , countResult := Except.ok 1
  , handleRes := fun _ => Except.ok ()
  , nameRes := fun _ => Except.ok "NVIDIA GeForce RTX 3080"
  , tempRes := fun _ => Except.ok 70
  , fanRes := fun _ => Except.ok 30
  , memRes := fun _ => Except.ok { used := 1048576, total := 2097152 }
  , utilRes := fun _ => Except.ok { gpu := 42 }
  , powerUsageRes := fun _ => Except.ok 150000
  , powerLimitRes := fun _ => Except.ok 250000
  , driverVersionRes := Except.ok "550.54"
  , shutdownResult := Except.ok () }

/-- The device dict `get_gpu_data nvGood` produces. -/
def recGood : GpuRecord :=
  mkRecord 0 "NVIDIA GeForce RTX 3080" 70 (FanVal.percent 30)
    { used := 1048576, total := 2097152 } { gpu := 42 } 150000 250000 "550.54"

/- ------------------------------------------------------------------ -/
/- Helper lemmas                                                       -/
/- ------------------------------------------------------------------ -/

theorem Eff.bind_ok_inv {α β : Type} {x : Eff α} {f : α → Eff β} {b : β}
    (h : (Eff.bind x f).2 = Except.ok b) :
    ∃ a, x.2 = Except.ok a ∧ (f a).2 = Except.ok b := by
  obtain ⟨t, r⟩ := x
  cases r with
  | ok a =>
      refine ⟨a, rfl, ?_⟩
      simpa [Eff.bind] using h
  | error e => simp [Eff.bind] at h

theorem Eff.mem_bind {α β : Type} {c : Call} {x : Eff α} {f : α → Eff β}
    (h : c ∈ (Eff.bind x f).1) : c ∈ x.1 ∨ ∃ a, c ∈ (f a).1 := by
  obtain ⟨t, r⟩ := x
  cases r with
  | ok a =>
      rcases List.mem_append.mp (by simpa [Eff.bind] using h) with h1 | h2
      · exact Or.inl h1
      · exact Or.inr ⟨a, h2⟩
  | error e => exact Or.inl (by simpa [Eff.bind] using h)

theorem Eff.bind_congr {α β : Type} (x : Eff α) {f g : α → Eff β}
    (h : ∀ a, f a = g a) : Eff.bind x f = Eff.bind x g := by
  obtain ⟨t, r⟩ := x
  cases r with
  | ok a => simp [Eff.bind, h a]
  | error e => rfl

theorem effFanCaught_fst (nv : NVML) (i : Nat) :
    (effFanCaught nv i).1 = [Call.query i QueryKind.fan] := by
  unfold effFanCaught effFanSpeed
  cases h : nv.fanRes i with
  | ok n => rfl
  | error e => cases e <;> rfl

theorem shutdown_not_mem_queryDevice (nv : NVML) (i : Nat) :
    Call.shutdown ∉ (queryDevice nv i).1 := by
  intro h
  unfold queryDevice at h
  rcases Eff.mem_bind h with h | ⟨a1, h⟩
  · simp [effHandle] at h
  rcases Eff.mem_bind h with h | ⟨a2, h⟩
  · simp [effName] at h
  rcases Eff.mem_bind h with h | ⟨a3, h⟩
  · simp [effTemp] at h
  rcases Eff.mem_bind h with h | ⟨a4, h⟩
  · rw [effFanCaught_fst] at h
    simp at h
  rcases Eff.mem_bind h with h | ⟨a5, h⟩
  · simp [effMemInfo] at h
  rcases Eff.mem_bind h with h | ⟨a6, h⟩
  · simp [effUtil] at h
  rcases Eff.mem_bind h with h | ⟨a7, h⟩
  · simp [effPowerUsage] at h
  rcases Eff.mem_bind h with h | ⟨a8, h⟩
  · simp [effPowerLimit] at h
  rcases Eff.mem_bind h with h | ⟨a9, h⟩
  · simp [effDriverVersion] at h
  · simp [Eff.pure] at h

theorem shutdown_not_mem_collectFrom (nv : NVML) :
    ∀ (n i : Nat), Call.shutdown ∉ (collectFrom nv i n).1 := by
  intro n
  induction n with
  | zero => intro i h; simp [collectFrom, Eff.pure] at h
  | succ n ih =>
      intro i h
      unfold collectFrom at h
      rcases Eff.mem_bind h with h | ⟨d, h⟩
      · exact shutdown_not_mem_queryDevice nv i h
      rcases Eff.mem_bind h with h | ⟨rest, h⟩
      · exact ih (i + 1) h
      · simp [Eff.pure] at h

theorem shutdown_not_mem_sampleBody (nv : NVML) :
    Call.shutdown ∉ (sampleBody nv).1 := by
  intro h
  unfold sampleBody at h
  rcases Eff.mem_bind h with h | ⟨u, h⟩
  · simp [effInit] at h
  rcases Eff.mem_bind h with h | ⟨cnt, h⟩
  · simp [effCount] at h
  · exact shutdown_not_mem_collectFrom nv cnt 0 h

theorem catchAll_effShutdown (nv : NVML) :
    catchAllNVML (effShutdown nv) = ([Call.shutdown], Except.ok ()) := by
  unfold catchAllNVML effShutdown
  cases nv.shutdownResult <;> rfl

theorem queryDevice_congr (nv : NVML) (sr : Except NVMLErr Unit) (i : Nat) :
    queryDevice { nv with shutdownResult := sr } i = queryDevice nv i := rfl

theorem collectFrom_congr (nv : NVML) (sr : Except NVMLErr Unit) :
    ∀ (n i : Nat),
      collectFrom { nv with shutdownResult := sr } i n = collectFrom nv i n := by
  intro n
  induction n with
  | zero => intro i; rfl
  | succ n ih =>
      intro i
      unfold collectFrom
      rw [queryDevice_congr]
      exact Eff.bind_congr _ (fun d => by rw [ih])

theorem sampleBody_congr (nv : NVML) (sr : Except NVMLErr Unit) :
    sampleBody { nv with shutdownResult := sr } = sampleBody nv := by
  unfold sampleBody
  have h1 : effInit { nv with shutdownResult := sr } = effInit nv := rfl
  have h2 : effCount { nv with shutdownResult := sr } = effCount nv := rfl
  rw [h1, h2]
  exact Eff.bind_congr _ (fun u =>
    Eff.bind_congr _ (fun c => collectFrom_congr nv sr c 0))

theorem queryDevice_ok_fields (nv : NVML) (i : Nat) (d : GpuRecord)
    (h : (queryDevice nv i).2 = Except.ok d) :
    d.id = i ∧ d.mem_percent = pct d.mem_used d.mem_total ∧
      d.power_percent = pct d.power_usage d.power_limit := by
  unfold queryDevice at h
  obtain ⟨a1, -, h⟩ := Eff.bind_ok_inv h
  obtain ⟨nm, -, h⟩ := Eff.bind_ok_inv h
  obtain ⟨tp, -, h⟩ := Eff.bind_ok_inv h
  obtain ⟨fv, -, h⟩ := Eff.bind_ok_inv h
  obtain ⟨mi, -, h⟩ := Eff.bind_ok_inv h
  obtain ⟨ur, -, h⟩ := Eff.bind_ok_inv h
  obtain ⟨pu, -, h⟩ := Eff.bind_ok_inv h
  obtain ⟨pl2, -, h⟩ := Eff.bind_ok_inv h
  obtain ⟨dv, -, h⟩ := Eff.bind_ok_inv h
  simp only [Eff.pure, Except.ok.injEq] at h
  subst h
  exact ⟨rfl, rfl, rfl⟩

theorem collectFrom_ok (nv : NVML) :
    ∀ (n i : Nat) (l : List GpuRecord),
      (collectFrom nv i n).2 = Except.ok l →
      l.length = n ∧
        ∀ j, j < n → ∃ d, l[j]? = some d ∧ (queryDevice nv (i + j)).2 = Except.ok d := by
  intro n
  induction n with
  | zero =>
      intro i l h
      simp only [collectFrom, Eff.pure, Except.ok.injEq] at h
      subst h
      exact ⟨rfl, fun j hj => absurd hj (Nat.not_lt_zero j)⟩
  | succ n ih =>
      intro i l h
      unfold collectFrom at h
      obtain ⟨d, hd, h⟩ := Eff.bind_ok_inv h
      obtain ⟨rest, hrest, h⟩ := Eff.bind_ok_inv h
      simp only [Eff.pure, Except.ok.injEq] at h
      subst h
      obtain ⟨hlen, hall⟩ := ih (i + 1) rest hrest
      refine ⟨by simp [hlen], ?_⟩
      intro j hj
      cases j with
      | zero => exact ⟨d, by simp, by simpa using hd⟩
      | succ j =>
          obtain ⟨d2, hget, hq⟩ := hall j (by omega)
          refine ⟨d2, by simpa using hget, ?_⟩
          have harith : i + (j + 1) = i + 1 + j := by omega
          rw [harith]
          exact hq

theorem pct_nonneg {u t : ℚ} (hu : 0 ≤ u) : 0 ≤ pct u t := by
  unfold pct
  by_cases ht : 0 < t
  · simp only [ht, if_true]
    exact mul_nonneg (div_nonneg hu ht.le) (by norm_num)
  · simp [ht]

theorem pct_le_100 {u t : ℚ} (hut : u ≤ t) : pct u t ≤ 100 := by
  unfold pct
  by_cases ht : 0 < t
  · simp only [ht, if_true]
    have h1 : u / t ≤ 1 := (div_le_one ht).mpr hut
    calc u / t * 100 ≤ 1 * 100 := by
          exact mul_le_mul_of_nonneg_right h1 (by norm_num)
      _ = 100 := by norm_num
  · simp [ht]

theorem pct_zero (u : ℚ) : pct u 0 = 0 := by simp [pct]

/- ------------------------------------------------------------------ -/
/- Claims                                                              -/
/- ------------------------------------------------------------------ -/

/-- C1: for every `Err(message)` input the renderer produces an error panel
(a titled, failure-styled panel whose text contains the message) and no
table; for every `Ok` input it produces no error text; and for every input
the frame kind (error panel vs table panel) matches exactly the
discriminant of the `SampleResult`. -/
theorem err_gives_error_panel_never_table (now msg : String)
    (devs : List GpuRecord) (r : SampleResult) :
    (generate_table now (SampleResult.err msg)).bodyText =
      some { text := "NVIDIA Driver/SMI Error:\n" ++ msg
           , justify := "center"
           , style := "bold red" }
  ∧ (generate_table now (SampleResult.err msg)).bodyTable = none
  ∧ (generate_table now (SampleResult.err msg)).title =
      "[bold yellow]GPU Monitor[/bold yellow]"
  ∧ (generate_table now (SampleResult.ok devs)).bodyText = none
  ∧ (generate_table now r).isErrorPanel = r.isErr := by
  refine ⟨rfl, rfl, rfl, rfl, ?_⟩
  cases r <;> rfl

/-- C4: temperature severity banding is the pure function `temp_style` of
the integer temperature with fixed thresholds: `temp >= 80` critical
("bold red"), `65 <= temp < 80` warning ("yellow"), `temp < 65` normal
("green"); the boundary values 64, 65, 79, 80 band as normal, warning,
warning, critical; and the rendered row's temperature text is styled with
exactly this function. -/
theorem temp_banding (t : Int) (gpu : GpuRecord) :
    ((80 ≤ t → temp_style t = "bold red")
      ∧ (65 ≤ t → t < 80 → temp_style t = "yellow")
      ∧ (t < 65 → temp_style t = "green"))
  ∧ (temp_style 64 = "green" ∧ temp_style 65 = "yellow"
      ∧ temp_style 79 = "yellow" ∧ temp_style 80 = "bold red")
  ∧ (renderRow gpu).temp_text =
      "[" ++ temp_style gpu.temp ++ "]" ++ toString gpu.temp ++ "°C[/"
        ++ temp_style gpu.temp ++ "]" := by
  refine ⟨⟨?_, ?_, ?_⟩, ⟨rfl, rfl, rfl, rfl⟩, rfl⟩
  · intro h
    unfold temp_style
    rw [if_pos (show t ≥ 80 from h)]
  · intro h1 h2
    unfold temp_style
    rw [if_neg (show ¬ t ≥ 80 from by omega), if_pos (show t ≥ 65 from h1)]
  · intro h
    unfold temp_style
    rw [if_neg (show ¬ t ≥ 80 from by omega),
      if_neg (show ¬ t ≥ 65 from by omega)]

/-- C5: for every `Ok(devices)` input the renderer produces a table frame
whose rows are exactly `devices.map renderRow` — one row per device, in
input order — and a footer whose driver version is the first device's
(or "N/A" for the empty list); `Ok([])` yields a zero-row table. -/
theorem one_row_per_device_in_order (now : String) (devs : List GpuRecord) :
    (generate_table now (SampleResult.ok devs)).bodyTable =
      some { title := "[bold yellow]GPU Monitor[/bold yellow]"
           , expand := true
           , border_style := "green"
           , columns := gpuColumns
           , rows := devs.map renderRow }
  ∧ (generate_table now (SampleResult.ok devs)).subtitle =
      some ("[dim]" ++ ("NVIDIA Driver: " ++
          (match devs with
           | [] => "N/A"
           | g :: _ => g.driver_version) ++ " | Last updated: " ++ now) ++ "[/dim]")
  ∧ (devs.map renderRow).length = devs.length
  ∧ (generate_table now (SampleResult.ok [])).bodyTable =
      some { title := "[bold yellow]GPU Monitor[/bold yellow]"
           , expand := true
           , border_style := "green"
           , columns := gpuColumns
           , rows := [] }
  ∧ (generate_table now (SampleResult.ok [])).subtitle =
      some ("[dim]" ++ ("NVIDIA Driver: " ++ "N/A" ++ " | Last updated: " ++ now)
        ++ "[/dim]") := by
  exact ⟨rfl, rfl, by simp, rfl, rfl⟩

/-- C10: the error panel's displayed text is not the bare message but
exactly the fixed heading "NVIDIA Driver/SMI Error:" followed by a newline
and the message, inside a red-bordered panel whose title text is
"GPU Monitor" (wrapped in bold-yellow markup). -/
theorem error_panel_exact_contents (now msg : String) :
    generate_table now (SampleResult.err msg) =
      { body := PanelBody.text
          { text := "NVIDIA Driver/SMI Error:\n" ++ msg
          , justify := "center"
          , style := "bold red" }
      , title := "[bold yellow]GPU Monitor[/bold yellow]"
      , subtitle := none
      , border_style := "red" }
  ∧ "NVIDIA Driver/SMI Error:\n" ++ msg ≠ msg
  ∧ "[bold yellow]GPU Monitor[/bold yellow]" =
      "[bold yellow]" ++ "GPU Monitor" ++ "[/bold yellow]" := by
  refine ⟨rfl, ?_, rfl⟩
  intro hcontra
  have hlen := congrArg String.length hcontra
  rw [String.length_append] at hlen
  have h25 : ("NVIDIA Driver/SMI Error:\n").length = 25 := rfl
  rw [h25] at hlen
  omega

/-- C2: every value returned by the sampler is either fully `Err(message)`,
or `Ok(l)` where `l` has exactly one complete record per enumerated device
(its length equals the reported device count) and every entry is the
successful query result for its index — so a per-device query failure
after some devices were already collected can never surface a partial
list. -/
theorem sampler_all_or_nothing (nv : NVML) :
    (∃ msg, get_gpu_data nv = SampleResult.err msg) ∨
    (∃ l, get_gpu_data nv = SampleResult.ok l ∧
      nv.countResult = Except.ok l.length ∧
      ∀ j, j < l.length →
        ∃ d, l[j]? = some d ∧ (queryDevice nv j).2 = Except.ok d) := by
  cases hb : (sampleBody nv).2 with
  | error e =>
      left
      exact ⟨e.str, by simp [get_gpu_data, get_gpu_data_run, hb]⟩
  | ok l =>
      right
      have hres : get_gpu_data nv = SampleResult.ok l := by
        simp [get_gpu_data, get_gpu_data_run, hb]
      have hb2 := hb
      unfold sampleBody at hb2
      obtain ⟨u, hinit, hb2⟩ := Eff.bind_ok_inv hb2
      obtain ⟨cnt, hcnt, hb2⟩ := Eff.bind_ok_inv hb2
      obtain ⟨hlen, hall⟩ := collectFrom_ok nv cnt 0 l hb2
      refine ⟨l, hres, by rw [hlen]; exact hcnt, ?_⟩
      intro j hj
      obtain ⟨d, hget, hq⟩ := hall j (by omega)
      exact ⟨d, hget, by simpa using hq⟩

/-- C3: the guarded percent expression of the sampler divides only when the
denominator is positive — evaluated with Python-style checked division it
never yields a `ZeroDivisionError`, equals `used/total*100` when the
total is positive and `0` when the total is zero (including `0/0`) — and
every record the device loop produces carries exactly this expression in
its `mem_percent` and `power_percent` fields. -/
theorem percent_division_safe (u t : ℚ) (nv : NVML) (i : Nat) (d : GpuRecord)
    (h : (queryDevice nv i).2 = Except.ok d) :
    pctChecked u t = some (pct u t)
  ∧ (t = 0 → pct u t = 0)
  ∧ (0 < t → pct u t = u / t * 100)
  ∧ d.mem_percent = pct d.mem_used d.mem_total
  ∧ d.power_percent = pct d.power_usage d.power_limit := by
  obtain ⟨-, hm, hp⟩ := queryDevice_ok_fields nv i d h
  refine ⟨?_, ?_, ?_, hm, hp⟩
  · by_cases ht : 0 < t
    · simp [pctChecked, pyDiv, pct, ht, ht.ne']
    · simp [pctChecked, pyDiv, pct, ht]
  · intro ht
    rw [ht]
    exact pct_zero u
  · intro ht
    unfold pct
    rw [if_pos ht]

/-- Witness for C3 at the concrete healthy subsystem `nvGood`. -/
theorem percent_division_safe_witness :
    pctChecked 1 2 = some (pct 1 2)
  ∧ ((2 : ℚ) = 0 → pct 1 2 = 0)
  ∧ ((0 : ℚ) < 2 → pct 1 2 = 1 / 2 * 100)
  ∧ recGood.mem_percent = pct recGood.mem_used recGood.mem_total
  ∧ recGood.power_percent = pct recGood.power_usage recGood.power_limit :=
  percent_division_safe 1 2 nvGood 0 recGood rfl

/-- C8: on every run of `get_gpu_data` — success, error, or failure
part-way through enumeration — the call log is the body's calls followed by
exactly one final shutdown call; the `try/except pass` around the shutdown
always completes without an escaping error (in particular when
initialization failed and shutdown reports uninitialized); and the
returned `SampleResult` never depends on the shutdown outcome. -/
theorem shutdown_on_every_path (nv : NVML) (sr : Except NVMLErr Unit) :
    (get_gpu_data_run nv).1 = (sampleBody nv).1 ++ [Call.shutdown]
  ∧ Call.shutdown ∉ (sampleBody nv).1
  ∧ (catchAllNVML (effShutdown nv)).2 = Except.ok ()
  ∧ get_gpu_data { nv with shutdownResult := sr } = get_gpu_data nv := by
  refine ⟨?_, shutdown_not_mem_sampleBody nv, ?_, ?_⟩
  · simp [get_gpu_data_run, catchAll_effShutdown]
  · rw [catchAll_effShutdown]
  · simp [get_gpu_data, get_gpu_data_run, sampleBody_congr]

/-- A subsystem identical to `nvGood` except that the fan query reports
NotSupported. -/
def nvFanNS : NVML :=
  { nvGood with fanRes := fun _ => Except.error NVMLErr.notSupported }

/-- A subsystem identical to `nvGood` except that the fan query fails with
an NVML error other than NotSupported. -/
def nvFanLost : NVML :=
  { nvGood with fanRes := fun _ => Except.error (NVMLErr.other "GPU is lost") }

/-- Counterexample to C6 as stated: a fan-speed query failure that is not
the NotSupported signal — here "GPU is lost", with initialization, the
device count and every other per-device query succeeding — fails the whole
sample with `Err`, instead of being recorded as "unsupported" for that
device. -/
theorem fan_failure_fails_sample :
    nvFanLost.fanRes 0 = Except.error (NVMLErr.other "GPU is lost")
  ∧ nvFanLost.initResult = Except.ok ()
  ∧ nvFanLost.countResult = Except.ok 1
  ∧ get_gpu_data nvFanLost = SampleResult.err "GPU is lost" :=
  ⟨rfl, rfl, rfl, rfl⟩

/-- C6 (amended): a fan-speed failure explicitly signalled as NotSupported
is caught locally and recorded as "unsupported" for that device only, the
device query still succeeding; any other NVML fan-query failure propagates
and fails the device query (hence the whole sample). -/
theorem fan_not_supported_caught_locally (nv : NVML) (i : Nat) (nm : String)
    (tp : Int) (mi : MemoryInfo) (ur : UtilizationRates) (pu pl : ℚ)
    (dv : String) (msg : String)
    (hh : nv.handleRes i = Except.ok ())
    (hn : nv.nameRes i = Except.ok nm)
    (ht : nv.tempRes i = Except.ok tp)
    (hm : nv.memRes i = Except.ok mi)
    (hu : nv.utilRes i = Except.ok ur)
    (hpu : nv.powerUsageRes i = Except.ok pu)
    (hpl : nv.powerLimitRes i = Except.ok pl)
    (hdv : nv.driverVersionRes = Except.ok dv) :
    (nv.fanRes i = Except.error NVMLErr.notSupported →
      (queryDevice nv i).2 =
        Except.ok (mkRecord i nm tp FanVal.na mi ur pu pl dv))
  ∧ (nv.fanRes i = Except.error (NVMLErr.other msg) →
      (queryDevice nv i).2 = Except.error (NVMLErr.other msg)) := by
  constructor
  · intro hfan
    simp [queryDevice, Eff.bind, Eff.pure, effHandle, effName, effTemp,
      effFanCaught, effFanSpeed, effMemInfo, effUtil, effPowerUsage,
      effPowerLimit, effDriverVersion, hh, hn, ht, hm, hu, hpu, hpl, hdv, hfan]
  · intro hfan
    simp [queryDevice, Eff.bind, Eff.pure, effHandle, effName, effTemp,
      effFanCaught, effFanSpeed, effMemInfo, effUtil, effPowerUsage,
      effPowerLimit, effDriverVersion, hh, hn, ht, hm, hu, hpu, hpl, hdv, hfan]

/-- Witness for the amended C6 at the concrete subsystem `nvFanNS`. -/
theorem fan_not_supported_caught_locally_witness :
    (nvFanNS.fanRes 0 = Except.error NVMLErr.notSupported →
      (queryDevice nvFanNS 0).2 =
        Except.ok (mkRecord 0 "NVIDIA GeForce RTX 3080" 70 FanVal.na
          { used := 1048576, total := 2097152 } { gpu := 42 }
          150000 250000 "550.54"))
  ∧ (nvFanNS.fanRes 0 = Except.error (NVMLErr.other "GPU is lost") →
      (queryDevice nvFanNS 0).2 =
        Except.error (NVMLErr.other "GPU is lost")) :=
  fan_not_supported_caught_locally nvFanNS 0 "NVIDIA GeForce RTX 3080" 70
    { used := 1048576, total := 2097152 } { gpu := 42 } 150000 250000
    "550.54" "GPU is lost" rfl rfl rfl rfl rfl rfl rfl rfl

/-- A subsystem identical to `nvGood` except that the reported power draw
(300 W) exceeds the enforced limit (250 W). -/
def nvOverPower : NVML :=
  { nvGood with powerUsageRes := fun _ => Except.ok 300000 }

/-- The device dict `get_gpu_data nvOverPower` produces. -/
def recOverPower : GpuRecord :=
  mkRecord 0 "NVIDIA GeForce RTX 3080" 70 (FanVal.percent 30)
    { used := 1048576, total := 2097152 } { gpu := 42 } 300000 250000 "550.54"

/-- Counterexample to C7 as stated: when the subsystem reports a power
draw of 300 W against a 250 W limit, the sampler returns a DeviceSample
whose `power_percent` is 120, outside [0,100]. -/
theorem power_percent_exceeds_100 :
    get_gpu_data nvOverPower = SampleResult.ok [recOverPower]
  ∧ recOverPower.power_percent = 120
  ∧ ¬ recOverPower.power_percent ≤ 100 := by
  have hval : recOverPower.power_percent = 120 := by
    show pct (300000 / 1000) (250000 / 1000) = 120
    rw [pct, if_pos (by norm_num)]
    norm_num
  refine ⟨rfl, hval, ?_⟩
  rw [hval]
  norm_num

/-- C7 (amended): for every DeviceSample produced by the device loop,
`power_percent` is nonnegative whenever the reported usage is, is 0
whenever the limit is 0, and lies within [0,100] whenever usage does not
exceed the limit; `mem_percent` lies within [0,100] whenever
`0 ≤ used ≤ total`.  Above-limit power draw yields a percent above 100. -/
theorem percent_bounds (nv : NVML) (i : Nat) (d : GpuRecord)
    (h : (queryDevice nv i).2 = Except.ok d)
    (hpu : 0 ≤ d.power_usage)
    (hmu : 0 ≤ d.mem_used) (hmt : d.mem_used ≤ d.mem_total) :
    0 ≤ d.power_percent
  ∧ (d.power_limit = 0 → d.power_percent = 0)
  ∧ (d.power_usage ≤ d.power_limit → d.power_percent ≤ 100)
  ∧ 0 ≤ d.mem_percent ∧ d.mem_percent ≤ 100 := by
  obtain ⟨-, hm, hp⟩ := queryDevice_ok_fields nv i d h
  rw [hm, hp]
  refine ⟨pct_nonneg hpu, ?_, ?_, pct_nonneg hmu, pct_le_100 hmt⟩
  · intro h0
    rw [h0]
    exact pct_zero d.power_usage
  · intro hle
    exact pct_le_100 hle

/-- Witness for the amended C7 at the concrete healthy subsystem. -/
theorem percent_bounds_witness :
    0 ≤ recGood.power_percent
  ∧ (recGood.power_limit = 0 → recGood.power_percent = 0)
  ∧ (recGood.power_usage ≤ recGood.power_limit → recGood.power_percent ≤ 100)
  ∧ 0 ≤ recGood.mem_percent ∧ recGood.mem_percent ≤ 100 :=
  percent_bounds nvGood 0 recGood rfl
    (show (0 : ℚ) ≤ 150000 / 1000 by norm_num)
    (show (0 : ℚ) ≤ 1048576 / (1024 * 1024) by norm_num)
    (show (1048576 : ℚ) / (1024 * 1024) ≤ 2097152 / (1024 * 1024) by norm_num)

/-- Counterexample to C9 as stated: when the loop dies with an unexpected
exception (message "boom"), the handler prints the error through the
console to standard output, writes nothing to the error stream, and the
process exits with code 0 — not a non-zero code. -/
theorem unexpected_error_exits_zero :
    (mainExceptionHandling (LoopExit.unexpected "boom")).exitCode = 0
  ∧ (mainExceptionHandling (LoopExit.unexpected "boom")).stderrLines = []
  ∧ (mainExceptionHandling (LoopExit.unexpected "boom")).stdoutLines =
      ["\n[bold red]An unexpected error occurred: boom[/bold red]"] :=
  ⟨rfl, rfl, rfl⟩

/-- C9 (amended): on a user interrupt the loop stops, a confirmation
message is printed and the process exits with code 0; on an unhandled
failure the loop terminates and the error message is printed to standard
output (not the error stream), the process again exiting with code 0 —
neither path produces a non-zero exit code or writes to stderr. -/
theorem exit_paths (msg : String) :
    mainExceptionHandling LoopExit.keyboardInterrupt =
      { stdoutLines := ["\n[bold green]GPU monitor stopped.[/bold green]"]
      , stderrLines := []
      , exitCode := 0 }
  ∧ mainExceptionHandling (LoopExit.unexpected msg) =
      { stdoutLines :=
          ["\n[bold red]An unexpected error occurred: " ++ msg ++ "[/bold red]"]
      , stderrLines := []
      , exitCode := 0 }
  ∧ (∀ e : LoopExit, (mainExceptionHandling e).exitCode = 0
      ∧ (mainExceptionHandling e).stderrLines = []) := by
  refine ⟨rfl, rfl, ?_⟩
  intro e
  cases e <;> exact ⟨rfl, rfl⟩

end GpuMon
